import Mathlib

/-!
Shallow embedding of `lightning/src/offers/offer.rs`: the `OfferBuilder`
construction flow, the immutable `Offer` value, its accessors, and the
record-level view of the TLV encoding (`as_tlv_stream`).

Collaborator types (chain hashes, public keys, blinded paths, feature bitsets)
are external to this slice and are modelled as opaque values with decidable
equality, exactly the interface the spec assigns them. The generic TLV byte
codec (the `tlv_stream!` macro and the `Writeable` machinery) is also outside
this slice; the wire form is therefore modelled at the tagged-record level,
via the `OfferTlvStreamRef` structure that `as_tlv_stream` produces, which is
the exact per-field presence/value information the encoder receives.
-/

/-- Chain-identifier hash, an opaque fixed-size value with equality
(collaborator interface, spec section 6). Modelled as a natural number. -/
abbrev ChainHash := Nat

/-- Public key, an opaque value with equality (collaborator interface). -/
abbrev PublicKey := Nat

/-- Blinded path, an opaque value (collaborator interface). -/
abbrev BlindedPath := Nat

/-- The named networks of `bitcoin::network::constants::Network`. -/
inductive Network where
  | Bitcoin
  | Testnet
  | Signet
  | Regtest
deriving DecidableEq, Repr

/-- Chain-hash computation, a collaborator: given a named network it returns a
fixed hash value; distinct networks have distinct genesis hashes. -/
def ChainHash.using_genesis_block : Network → ChainHash
  | Network.Bitcoin => 0
  | Network.Testnet => 1
  | Network.Signet => 2
  | Network.Regtest => 3

/-- Feature bitset (collaborator interface): opaque with a distinguished empty
default and equality. Modelled as a list of flag bytes. -/
abbrev OfferFeatures := List Nat

/-- The distinguished empty default of the feature bitset. -/
def OfferFeatures.empty : OfferFeatures := []

/-- A span of time, as `core::time::Duration`: modelled by its total
nanosecond count, on which the Rust `Duration` order is the natural order. -/
abbrev Duration := Nat

/-- The `Duration::from_secs` constructor. -/
def Duration.from_secs (s : Nat) : Duration := s * 1000000000

/-- The `Duration::as_secs` accessor. -/
def Duration.as_secs (d : Duration) : Nat := d / 1000000000

/-- An ISO 4712 three-letter currency code, `[u8; 3]`. -/
abbrev CurrencyCode := Nat × Nat × Nat

/-- The minimum amount for an item in an offer, denominated in bitcoin or in
another currency (`enum Amount`). -/
inductive Amount where
  | Bitcoin (amount_msats : Nat)
  | Currency (iso4217_code : CurrencyCode) (amount : Nat)
deriving DecidableEq, Repr

/-- A `u64` known to be nonzero, as `core::num::NonZeroU64`. -/
abbrev NonZeroU64 := { n : Nat // n ≠ 0 }

/-- Quantity of items supported by an offer (`enum Quantity`). -/
inductive Quantity where
  | Bounded (n : NonZeroU64)
  | Unbounded
deriving DecidableEq

/-- `Quantity::one()`: the default quantity, `Bounded(1)`. -/
def Quantity.one : Quantity := Quantity.Bounded ⟨1, Nat.one_ne_zero⟩

/-- `Quantity::to_tlv_record`: `None` for `Bounded(1)`, `Some n` for
`Bounded(n)` with `n` different from 1, `Some 0` for `Unbounded`. -/
def Quantity.to_tlv_record : Quantity → Option Nat
  | Quantity.Bounded n => if n.val = 1 then none else some n.val
  | Quantity.Unbounded => some 0

/-- `struct OfferContents`: the semantic record staged by the builder. -/
structure OfferContents where
  chains : Option (List ChainHash)
  metadata : Option (List Nat)
  amount : Option Amount
  description : String
  features : OfferFeatures
  absolute_expiry : Option Duration
  issuer : Option String
  paths : Option (List BlindedPath)
  supported_quantity : Quantity
  signing_pubkey : Option PublicKey
deriving DecidableEq

/-- `OfferContents::implied_chain`: the chain assumed when none is set. -/
def OfferContents.implied_chain (_ : OfferContents) : ChainHash :=
  ChainHash.using_genesis_block Network.Bitcoin

/-- `struct OfferTlvStreamRef`: the per-field record view handed to the TLV
codec; a `none` field emits no record at all. -/
structure OfferTlvStreamRef where
  chains : Option (List ChainHash)
  metadata : Option (List Nat)
  currency : Option CurrencyCode
  amount : Option Nat
  description : Option String
  features : Option OfferFeatures
  absolute_expiry : Option Nat
  paths : Option (List BlindedPath)
  issuer : Option String
  quantity_max : Option Nat
  node_id : Option PublicKey
deriving DecidableEq

/-- `OfferContents::as_tlv_stream`: translate the semantic record into the
tagged-record view, applying the per-field omission rules. -/
def OfferContents.as_tlv_stream (c : OfferContents) : OfferTlvStreamRef :=
  let currencyAmount : Option CurrencyCode × Option Nat :=
    match c.amount with
    | none => (none, none)
    | some (Amount.Bitcoin amount_msats) => (none, some amount_msats)
    | some (Amount.Currency iso4217_code amount) => (some iso4217_code, some amount)
  let features : Option OfferFeatures :=
    if c.features = OfferFeatures.empty then none else some c.features
  { chains := c.chains
    metadata := c.metadata
    currency := currencyAmount.1
    amount := currencyAmount.2
    description := some c.description
    features := features
    absolute_expiry := c.absolute_expiry.map Duration.as_secs
    paths := c.paths
    issuer := c.issuer
    quantity_max := c.supported_quantity.to_tlv_record
    node_id := c.signing_pubkey }

/-- `struct Offer`: the immutable pair of canonical encoding and contents.
The byte buffer is represented by the tagged-record stream written at build
time, since the generic byte-level TLV codec lies outside this slice. -/
structure Offer where
  bytes : OfferTlvStreamRef
  contents : OfferContents
deriving DecidableEq

/-- Outcome of `OfferBuilder::build`: `Ok(offer)`, the undifferentiated
validation error `Err(())`, or a panic (the `unreachable!()` arm). -/
inductive BuildResult where
  | ok (offer : Offer)
  | err
  | panic
deriving DecidableEq

/-- Modelled from the spec: `MAX_VALUE_MSAT` is declared in `ln/msgs.rs`,
outside this slice; the spec gives the network maximum payable value as
2,100,000,000,000,000 in the minor unit. -/
def MAX_VALUE_MSAT : Nat := 2100000000000000

/-- `struct OfferBuilder`: single-owner staging wrapper around the record. -/
structure OfferBuilder where
  offer : OfferContents
deriving DecidableEq

/-- `OfferBuilder::new(description, signing_pubkey)`. -/
def OfferBuilder.new (description : String) (signing_pubkey : PublicKey) : OfferBuilder :=
  { offer :=
    { chains := none
      metadata := none
      amount := none
      description := description
      features := OfferFeatures.empty
      absolute_expiry := none
      issuer := none
      paths := none
      supported_quantity := Quantity.one
      signing_pubkey := some signing_pubkey } }

/-- `OfferBuilder::chain(network)`: append the chain hash of the network to
the chain list unless it is already present. -/
def OfferBuilder.chain (b : OfferBuilder) (network : Network) : OfferBuilder :=
  let chains := b.offer.chains.getD []
  let chain := ChainHash.using_genesis_block network
  let chains := if chain ∈ chains then chains else chains ++ [chain]
  { b with offer := { b.offer with chains := some chains } }

/-- `OfferBuilder::metadata(metadata)`: override the prior value. -/
def OfferBuilder.metadata (b : OfferBuilder) (metadata : List Nat) : OfferBuilder :=
  { b with offer := { b.offer with metadata := some metadata } }

/-- The private `OfferBuilder::amount(amount)` setter: override the prior
value. -/
def OfferBuilder.amount (b : OfferBuilder) (amount : Amount) : OfferBuilder :=
  { b with offer := { b.offer with amount := some amount } }

/-- `OfferBuilder::amount_msats(amount_msats)`: set a Bitcoin amount. -/
def OfferBuilder.amount_msats (b : OfferBuilder) (amount_msats : Nat) : OfferBuilder :=
  b.amount (Amount.Bitcoin amount_msats)

/-- The test-only `OfferBuilder::features(features)` setter. -/
def OfferBuilder.features (b : OfferBuilder) (features : OfferFeatures) : OfferBuilder :=
  { b with offer := { b.offer with features := features } }

/-- `OfferBuilder::absolute_expiry(absolute_expiry)`: override the prior
value. -/
def OfferBuilder.absolute_expiry (b : OfferBuilder) (absolute_expiry : Duration) : OfferBuilder :=
  { b with offer := { b.offer with absolute_expiry := some absolute_expiry } }

/-- `OfferBuilder::issuer(issuer)`: override the prior value. -/
def OfferBuilder.issuer (b : OfferBuilder) (issuer : String) : OfferBuilder :=
  { b with offer := { b.offer with issuer := some issuer } }

/-- `OfferBuilder::path(path)`: append a blinded path, no de-duplication. -/
def OfferBuilder.path (b : OfferBuilder) (path : BlindedPath) : OfferBuilder :=
  { b with offer := { b.offer with paths := some (b.offer.paths.getD [] ++ [path]) } }

/-- `OfferBuilder::supported_quantity(quantity)`: override the prior value. -/
def OfferBuilder.supported_quantity (b : OfferBuilder) (quantity : Quantity) : OfferBuilder :=
  { b with offer := { b.offer with supported_quantity := quantity } }

/-- The chain-set canonicalization performed inside `build`: a chain list
that is exactly the singleton implied chain is dropped to `None`. The source
test `chains.len() == 1 && chains[0] == implied_chain` is equality with the
singleton list. -/
def OfferContents.canonicalizeChains (c : OfferContents) : OfferContents :=
  match c.chains with
  | some chains => if chains = [c.implied_chain] then { c with chains := none } else c
  | none => c

/-- `OfferBuilder::build`: validate the amount, canonicalize the chain set,
encode once, and freeze the offer. The `Some(Amount::Currency)` arm of the
source is `unreachable!()`, a panic. -/
def OfferBuilder.build (b : OfferBuilder) : BuildResult :=
  match b.offer.amount with
  | some (Amount.Bitcoin amount_msats) =>
    if amount_msats > MAX_VALUE_MSAT then BuildResult.err
    else
      let c := b.offer.canonicalizeChains
      BuildResult.ok { bytes := c.as_tlv_stream, contents := c }
  | some (Amount.Currency _ _) => BuildResult.panic
  | none =>
    let c := b.offer.canonicalizeChains
    BuildResult.ok { bytes := c.as_tlv_stream, contents := c }

/-- Print-safe text wrapper, `util::string::PrintableString`: pass-through. -/
structure PrintableString where
  val : String
deriving DecidableEq

/-- `Offer::chains`: the explicit list, or the singleton implied chain. -/
def Offer.chains (o : Offer) : List ChainHash :=
  match o.contents.chains with
  | some chains => chains
  | none => [o.contents.implied_chain]

/-- `Offer::metadata`. -/
def Offer.metadata (o : Offer) : Option (List Nat) := o.contents.metadata

/-- `Offer::amount`. -/
def Offer.amount (o : Offer) : Option Amount := o.contents.amount

/-- `Offer::description`. -/
def Offer.description (o : Offer) : PrintableString := ⟨o.contents.description⟩

/-- `Offer::features`. -/
def Offer.features (o : Offer) : OfferFeatures := o.contents.features

/-- `Offer::absolute_expiry`. -/
def Offer.absolute_expiry (o : Offer) : Option Duration := o.contents.absolute_expiry

/-- `Offer::is_expired`, std only. The wall-clock read
`SystemTime::UNIX_EPOCH.elapsed()` is a collaborator; its result, success or
failure, is passed in explicitly. -/
def Offer.is_expired (o : Offer) (elapsedResult : Except Unit Duration) : Bool :=
  match o.absolute_expiry with
  | some seconds_from_epoch =>
    match elapsedResult with
    | Except.ok elapsed => decide (elapsed > seconds_from_epoch)
    | Except.error _ => false
  | none => false

/-- `Offer::issuer`. -/
def Offer.issuer (o : Offer) : Option PrintableString :=
  o.contents.issuer.map (fun s => ⟨s⟩)

/-- `Offer::paths`: the stored list or an empty view. -/
def Offer.paths (o : Offer) : List BlindedPath := o.contents.paths.getD []

/-- `Offer::supported_quantity`. -/
def Offer.supported_quantity (o : Offer) : Quantity := o.contents.supported_quantity

/-- `Offer::signing_pubkey`: unwraps the stored key, which is always present
in a finalized offer because the builder constructor stores it. -/
def Offer.signing_pubkey (o : Offer) : PublicKey := o.contents.signing_pubkey.getD 0

/-- The offer produced by finalizing a fresh builder with no other setter
calls; a fresh builder has no chain list, so canonicalization is the
identity on it. Used as a concrete instance by witnesses. -/
def defaultBuiltOffer (d : String) (pk : PublicKey) : Offer :=
  { bytes := (OfferBuilder.new d pk).offer.as_tlv_stream
    contents := (OfferBuilder.new d pk).offer }

/-- An offer built from a fresh builder after setting an absolute expiry of
5 nanoseconds; a concrete instance for witnesses. -/
def expiryBuiltOffer : Offer :=
  { bytes := ((OfferBuilder.new "foo" 42).absolute_expiry 5).offer.as_tlv_stream
    contents := ((OfferBuilder.new "foo" 42).absolute_expiry 5).offer }

/-- One step of the chain-list insertion performed by `OfferBuilder::chain`:
append the hash unless already present. -/
def insertChainHash (l : List ChainHash) (h : ChainHash) : List ChainHash :=
  if h ∈ l then l else l ++ [h]

/-- First-occurrence de-duplication of a hash list: each distinct hash kept
exactly once, at the position of its first insertion. -/
def insertionDedup (l : List ChainHash) : List ChainHash :=
  l.foldl insertChainHash []

/-- C1: build returns the InvalidAmount error exactly when the staged amount
is the Bitcoin variant and its millisatoshi value strictly exceeds the
maximum payable value; a Bitcoin amount equal to the maximum builds Ok, and
one unit above it returns the error. -/
theorem build_err_iff_bitcoin_over_max :
    (∀ b : OfferBuilder, b.build = BuildResult.err ↔
      ∃ m, b.offer.amount = some (Amount.Bitcoin m) ∧ MAX_VALUE_MSAT < m)
    ∧ (∀ (d : String) (pk : PublicKey), ∃ o : Offer,
        ((OfferBuilder.new d pk).amount_msats MAX_VALUE_MSAT).build = BuildResult.ok o)
    ∧ (∀ (d : String) (pk : PublicKey),
        ((OfferBuilder.new d pk).amount_msats (MAX_VALUE_MSAT + 1)).build
          = BuildResult.err) := by
  refine ⟨?_, ?_, ?_⟩
  · intro b
    match h : b.offer.amount with
    | none => simp [OfferBuilder.build, h]
    | some (Amount.Bitcoin m) =>
      by_cases hm : m > MAX_VALUE_MSAT
      · simp [OfferBuilder.build, h, hm]
      · simp [OfferBuilder.build, h, hm]
    | some (Amount.Currency c a) => simp [OfferBuilder.build, h]
  · intro d pk; exact ⟨_, rfl⟩
  · intro d pk; rfl

/-- C2 counterexample: a builder staged with a Currency amount does panic at
build, refuting the claim that build on a Currency amount never panics. -/
theorem currency_build_claim_cex :
    ((OfferBuilder.new "foo" 42).amount (Amount.Currency (85, 83, 68) 10)).build
      = BuildResult.panic := rfl

/-- C2 amended: for every builder state whose amount is the Currency
variant, build does not return the validation error (the variant is not
bound-checked) but panics, through the unreachable arm: the Currency variant
cannot arise through the public builder surface, whose only amount setter
stages the Bitcoin variant. -/
theorem currency_build_panics (b : OfferBuilder) (code : CurrencyCode) (amt : Nat)
    (h : b.offer.amount = some (Amount.Currency code amt)) :
    b.build = BuildResult.panic ∧ b.build ≠ BuildResult.err := by
  unfold OfferBuilder.build
  rw [h]
  exact ⟨rfl, by simp⟩

/-- C2 witness: the amended theorem applied at a concrete Currency builder. -/
theorem currency_build_panics_witness :
    ((OfferBuilder.new "bar" 7).amount (Amount.Currency (69, 85, 82) 25)).build
        = BuildResult.panic ∧
      ((OfferBuilder.new "bar" 7).amount (Amount.Currency (69, 85, 82) 25)).build
        ≠ BuildResult.err :=
  currency_build_panics _ (69, 85, 82) 25 rfl

/-- C9: the maximum payable value enforced at build equals
2,100,000,000,000,000 minor units: a Bitcoin amount of exactly that value
builds Ok and one unit above returns the error. -/
theorem max_value_msat_spec :
    MAX_VALUE_MSAT = 2100000000000000
    ∧ (∀ (d : String) (pk : PublicKey), ∃ o : Offer,
        ((OfferBuilder.new d pk).amount_msats 2100000000000000).build = BuildResult.ok o)
    ∧ (∀ (d : String) (pk : PublicKey),
        ((OfferBuilder.new d pk).amount_msats 2100000000000001).build
          = BuildResult.err) := by
  refine ⟨rfl, ?_, ?_⟩
  · intro d pk; exact ⟨_, rfl⟩
  · intro d pk; rfl

theorem canonicalizeChains_ne_singleton_implied (c : OfferContents) :
    c.canonicalizeChains.chains ≠ some [c.implied_chain] := by
  cases h : c.chains with
  | none => simp [OfferContents.canonicalizeChains, h]
  | some chains =>
    by_cases hc : chains = [c.implied_chain]
    · simp [OfferContents.canonicalizeChains, h, hc]
    · simp [OfferContents.canonicalizeChains, h, hc]

theorem as_tlv_stream_chains (c : OfferContents) :
    c.as_tlv_stream.chains = c.chains := rfl

/-- C3: a successfully built offer never stores a chain list equal to the
singleton implied default chain (so the wire form carries no such chains
record), while the chains accessor still reports the singleton implied
default chain when the stored field is empty. -/
theorem built_chains_canonical :
    (∀ (b : OfferBuilder) (o : Offer), b.build = BuildResult.ok o →
      o.contents.chains ≠ some [o.contents.implied_chain]
        ∧ o.bytes.chains ≠ some [o.contents.implied_chain])
    ∧ (∀ o : Offer, o.contents.chains = none →
        o.chains = [o.contents.implied_chain]) := by
  constructor
  · intro b o hb
    have hcore : o.contents = b.offer.canonicalizeChains
        ∧ o.bytes = b.offer.canonicalizeChains.as_tlv_stream := by
      unfold OfferBuilder.build at hb
      split at hb
      · split at hb
        · exact BuildResult.noConfusion hb
        · cases hb
          exact ⟨rfl, rfl⟩
      · exact BuildResult.noConfusion hb
      · cases hb
        exact ⟨rfl, rfl⟩
    obtain ⟨h1, h2⟩ := hcore
    constructor
    · rw [h1]
      exact canonicalizeChains_ne_singleton_implied _
    · rw [h1, h2, as_tlv_stream_chains]
      exact canonicalizeChains_ne_singleton_implied _
  · intro o h
    unfold Offer.chains
    rw [h]

/-- C3 witness: the theorem applied to a builder that selected only the
implied default chain; the built offer stores no chain list and the accessor
reports the implied singleton. -/
theorem built_chains_canonical_witness :
    ((defaultBuiltOffer "foo" 42).contents.chains
        ≠ some [(defaultBuiltOffer "foo" 42).contents.implied_chain])
    ∧ (defaultBuiltOffer "foo" 42).chains
        = [(defaultBuiltOffer "foo" 42).contents.implied_chain] :=
  ⟨(built_chains_canonical.1 ((OfferBuilder.new "foo" 42).chain Network.Bitcoin)
      (defaultBuiltOffer "foo" 42) rfl).1,
    built_chains_canonical.2 (defaultBuiltOffer "foo" 42) rfl⟩

/-- C4: an offer with no absolute expiry is never expired, a failed clock
read means not expired, and with an expiry set and a successful clock read
the offer is expired exactly when the elapsed time strictly exceeds the
expiry duration. -/
theorem is_expired_spec (o : Offer) (r : Except Unit Duration) :
    (o.absolute_expiry = none → o.is_expired r = false)
    ∧ (r = Except.error () → o.is_expired r = false)
    ∧ (∀ (e t : Duration), o.absolute_expiry = some e → r = Except.ok t →
        (o.is_expired r = true ↔ e < t)) := by
  refine ⟨?_, ?_, ?_⟩
  · intro h
    simp [Offer.is_expired, h]
  · intro h
    subst h
    unfold Offer.is_expired
    match h2 : o.absolute_expiry with
    | none => rfl
    | some e => rfl
  · intro e t he ht
    subst ht
    simp [Offer.is_expired, he]

/-- C4 witness: the theorem applied to a concrete offer without an expiry,
and to one with expiry 5 under a failed clock read and under an elapsed
time of 7. -/
theorem is_expired_spec_witness :
    (defaultBuiltOffer "foo" 42).is_expired (Except.ok 100) = false
    ∧ expiryBuiltOffer.is_expired (Except.error ()) = false
    ∧ (expiryBuiltOffer.is_expired (Except.ok 7) = true ↔ (5 : Duration) < 7) :=
  ⟨(is_expired_spec (defaultBuiltOffer "foo" 42) (Except.ok 100)).1 rfl,
    (is_expired_spec expiryBuiltOffer (Except.error ())).2.1 rfl,
    (is_expired_spec expiryBuiltOffer (Except.ok 7)).2.2 5 7 rfl rfl⟩

/-- C10: every builder setter changes only its own field of the staged
record: the staged record after the call equals the record before it with
just that field replaced, so description, signing key and all unrelated
fields are untouched; each setter is a total function. -/
theorem setters_frame :
    (∀ (b : OfferBuilder) (n : Network),
      (b.chain n).offer = { b.offer with chains := (b.chain n).offer.chains })
    ∧ (∀ (b : OfferBuilder) (v : List Nat),
      (b.metadata v).offer = { b.offer with metadata := (b.metadata v).offer.metadata })
    ∧ (∀ (b : OfferBuilder) (v : Nat),
      (b.amount_msats v).offer = { b.offer with amount := (b.amount_msats v).offer.amount })
    ∧ (∀ (b : OfferBuilder) (v : Duration),
      (b.absolute_expiry v).offer
        = { b.offer with absolute_expiry := (b.absolute_expiry v).offer.absolute_expiry })
    ∧ (∀ (b : OfferBuilder) (v : String),
      (b.issuer v).offer = { b.offer with issuer := (b.issuer v).offer.issuer })
    ∧ (∀ (b : OfferBuilder) (v : BlindedPath),
      (b.path v).offer = { b.offer with paths := (b.path v).offer.paths })
    ∧ (∀ (b : OfferBuilder) (v : Quantity),
      (b.supported_quantity v).offer
        = { b.offer with supported_quantity := (b.supported_quantity v).offer.supported_quantity }) :=
  ⟨fun _ _ => rfl, fun _ _ => rfl, fun _ _ => rfl, fun _ _ => rfl,
    fun _ _ => rfl, fun _ _ => rfl, fun _ _ => rfl⟩

theorem mem_insertChainHash (l : List ChainHash) (a x : ChainHash) :
    x ∈ insertChainHash l a ↔ x ∈ l ∨ x = a := by
  unfold insertChainHash
  split
  · rename_i hm
    constructor
    · exact Or.inl
    · rintro (hx | rfl)
      · exact hx
      · exact hm
  · simp

theorem insertChainHash_nodup (l : List ChainHash) (a : ChainHash)
    (hl : l.Nodup) : (insertChainHash l a).Nodup := by
  unfold insertChainHash
  split
  · exact hl
  · rename_i hm
    simp [List.nodup_append, hl, hm]

theorem foldl_insertChainHash_nodup (l acc : List ChainHash) (ha : acc.Nodup) :
    (l.foldl insertChainHash acc).Nodup := by
  induction l generalizing acc with
  | nil => exact ha
  | cons x l ih => exact ih _ (insertChainHash_nodup acc x ha)

theorem mem_foldl_insertChainHash (l acc : List ChainHash) (x : ChainHash) :
    x ∈ l.foldl insertChainHash acc ↔ x ∈ acc ∨ x ∈ l := by
  induction l generalizing acc with
  | nil => simp
  | cons a l ih =>
    simp only [List.foldl_cons, ih, mem_insertChainHash, List.mem_cons]
    tauto

theorem foldl_chain_chainsList (ns : List Network) (b : OfferBuilder) :
    (ns.foldl OfferBuilder.chain b).offer.chains.getD []
      = (ns.map ChainHash.using_genesis_block).foldl insertChainHash
          (b.offer.chains.getD []) := by
  induction ns generalizing b with
  | nil => rfl
  | cons n ns ih =>
    simp only [List.foldl_cons, List.map_cons]
    rw [ih]
    rfl

/-- C5: one step of the chain setter appends the chain hash exactly when it
is absent and leaves the list unchanged when present; over any call
sequence from a fresh builder the chain list is the first-occurrence
de-duplication of the hash sequence, which holds each distinct hash exactly
once. -/
theorem chain_dedup_first_insertion :
    (∀ (b : OfferBuilder) (n : Network),
      (b.chain n).offer.chains
        = some (insertChainHash (b.offer.chains.getD [])
            (ChainHash.using_genesis_block n)))
    ∧ (∀ (d : String) (pk : PublicKey) (ns : List Network),
      (ns.foldl OfferBuilder.chain (OfferBuilder.new d pk)).offer.chains.getD []
        = insertionDedup (ns.map ChainHash.using_genesis_block))
    ∧ (∀ l : List ChainHash, (insertionDedup l).Nodup)
    ∧ (∀ (l : List ChainHash) (x : ChainHash), x ∈ insertionDedup l ↔ x ∈ l) := by
  refine ⟨fun b n => rfl, ?_, ?_, ?_⟩
  · intro d pk ns
    exact foldl_chain_chainsList ns (OfferBuilder.new d pk)
  · intro l
    exact foldl_insertChainHash_nodup l [] List.nodup_nil
  · intro l x
    simpa using mem_foldl_insertChainHash l [] x

/-- C6: the quantity_max record of the encoded stream is the TLV image of
the supported quantity: omitted exactly for the default Bounded(1), value 0
for Unbounded, value n for Bounded(n) with n above 1; re-setting the
quantity to Bounded(1) after any other value restores the omitted record. -/
theorem quantity_tlv_canonicalization :
    (∀ c : OfferContents,
      c.as_tlv_stream.quantity_max = c.supported_quantity.to_tlv_record)
    ∧ (∀ q : Quantity, q.to_tlv_record = none ↔ q = Quantity.one)
    ∧ Quantity.Unbounded.to_tlv_record = some 0
    ∧ (∀ n : NonZeroU64, 1 < n.val →
        (Quantity.Bounded n).to_tlv_record = some n.val)
    ∧ (∀ (b : OfferBuilder) (q : Quantity),
        ((b.supported_quantity q).supported_quantity
            Quantity.one).offer.as_tlv_stream.quantity_max = none) := by
  refine ⟨fun c => rfl, ?_, rfl, ?_, fun b q => rfl⟩
  · intro q
    cases q with
    | Bounded n =>
      by_cases h : n.val = 1
      · simp [Quantity.to_tlv_record, Quantity.one, h, Subtype.ext_iff]
      · simp [Quantity.to_tlv_record, Quantity.one, h, Subtype.ext_iff]
    | Unbounded => simp [Quantity.to_tlv_record, Quantity.one]
  · intro n hn
    have h : n.val ≠ 1 := by omega
    simp [Quantity.to_tlv_record, h]

/-- C6 witness: the theorem applied at the quantity Bounded(10). -/
theorem quantity_tlv_canonicalization_witness :
    (Quantity.Bounded ⟨10, by decide⟩).to_tlv_record = some 10 :=
  quantity_tlv_canonicalization.2.2.2.1 ⟨10, by decide⟩ (by decide)

/-- C7: each override setter retains only the second value: setting twice
leaves the builder in the very state of a single call with the second
value, and after a successful build the accessor and the encoded record
report the second value. -/
theorem setters_last_write_wins :
    (∀ (b : OfferBuilder) (v1 v2 : List Nat),
      (b.metadata v1).metadata v2 = b.metadata v2)
    ∧ (∀ (b : OfferBuilder) (v1 v2 : Nat),
      (b.amount_msats v1).amount_msats v2 = b.amount_msats v2)
    ∧ (∀ (b : OfferBuilder) (v1 v2 : Duration),
      (b.absolute_expiry v1).absolute_expiry v2 = b.absolute_expiry v2)
    ∧ (∀ (b : OfferBuilder) (v1 v2 : String),
      (b.issuer v1).issuer v2 = b.issuer v2)
    ∧ (∀ (b : OfferBuilder) (v1 v2 : Quantity),
      (b.supported_quantity v1).supported_quantity v2 = b.supported_quantity v2)
    ∧ (∀ (d : String) (pk : PublicKey) (v1 v2 : List Nat),
      match (((OfferBuilder.new d pk).metadata v1).metadata v2).build with
      | BuildResult.ok o => o.metadata = some v2 ∧ o.bytes.metadata = some v2
      | _ => False)
    ∧ (∀ (d : String) (pk : PublicKey) (v1 v2 : Duration),
      match (((OfferBuilder.new d pk).absolute_expiry v1).absolute_expiry v2).build with
      | BuildResult.ok o => o.absolute_expiry = some v2
          ∧ o.bytes.absolute_expiry = some (Duration.as_secs v2)
      | _ => False)
    ∧ (∀ (d : String) (pk : PublicKey) (v1 v2 : String),
      match (((OfferBuilder.new d pk).issuer v1).issuer v2).build with
      | BuildResult.ok o => o.issuer = some ⟨v2⟩ ∧ o.bytes.issuer = some v2
      | _ => False)
    ∧ (∀ (d : String) (pk : PublicKey) (v1 v2 : Quantity),
      match (((OfferBuilder.new d pk).supported_quantity v1).supported_quantity v2).build with
      | BuildResult.ok o => o.supported_quantity = v2
          ∧ o.bytes.quantity_max = v2.to_tlv_record
      | _ => False)
    ∧ (∀ (d : String) (pk : PublicKey) (v1 v2 : Nat), ¬ MAX_VALUE_MSAT < v2 →
      match (((OfferBuilder.new d pk).amount_msats v1).amount_msats v2).build with
      | BuildResult.ok o => o.amount = some (Amount.Bitcoin v2)
          ∧ o.bytes.amount = some v2 ∧ o.bytes.currency = none
      | _ => False)
    ∧ (∀ (d : String) (pk : PublicKey) (v1 v2 : Nat), MAX_VALUE_MSAT < v2 →
      (((OfferBuilder.new d pk).amount_msats v1).amount_msats v2).build
        = BuildResult.err) := by
  refine ⟨fun _ _ _ => rfl, fun _ _ _ => rfl, fun _ _ _ => rfl, fun _ _ _ => rfl,
    fun _ _ _ => rfl, fun _ _ _ _ => ⟨rfl, rfl⟩, fun _ _ _ _ => ⟨rfl, rfl⟩,
    fun _ _ _ _ => ⟨rfl, rfl⟩, fun _ _ _ _ => ⟨rfl, rfl⟩, ?_, ?_⟩
  · intro d pk v1 v2 h
    rw [show (((OfferBuilder.new d pk).amount_msats v1).amount_msats v2).build
        = if v2 > MAX_VALUE_MSAT then BuildResult.err
          else BuildResult.ok
            { bytes := (((OfferBuilder.new d pk).amount_msats v1).amount_msats
                v2).offer.as_tlv_stream
              contents := (((OfferBuilder.new d pk).amount_msats v1).amount_msats
                v2).offer } from rfl]
    rw [if_neg h]
    exact ⟨rfl, rfl, rfl⟩
  · intro d pk v1 v2 h
    rw [show (((OfferBuilder.new d pk).amount_msats v1).amount_msats v2).build
        = if v2 > MAX_VALUE_MSAT then BuildResult.err
          else BuildResult.ok
            { bytes := (((OfferBuilder.new d pk).amount_msats v1).amount_msats
                v2).offer.as_tlv_stream
              contents := (((OfferBuilder.new d pk).amount_msats v1).amount_msats
                v2).offer } from rfl]
    rw [if_pos h]

/-- C7 witness: the amount conjuncts applied at a value below the bound and
one above it. -/
theorem setters_last_write_wins_witness :
    (match (((OfferBuilder.new "foo" 42).amount_msats 5).amount_msats 1000).build with
      | BuildResult.ok o => o.amount = some (Amount.Bitcoin 1000)
          ∧ o.bytes.amount = some 1000 ∧ o.bytes.currency = none
      | _ => False)
    ∧ (((OfferBuilder.new "foo" 42).amount_msats 5).amount_msats
        (MAX_VALUE_MSAT + 1)).build = BuildResult.err :=
  ⟨setters_last_write_wins.2.2.2.2.2.2.2.2.2.1 "foo" 42 5 1000 (by decide),
    setters_last_write_wins.2.2.2.2.2.2.2.2.2.2 "foo" 42 5 (MAX_VALUE_MSAT + 1)
      (Nat.lt_succ_self _)⟩

/-- C8: finalizing a fresh builder with no other setter calls yields the
all-defaults offer: implied-chain singleton from the accessor, no metadata,
no amount, empty features, no expiry, no paths, no issuer, quantity
Bounded(1), the given signing key, and a record stream carrying only the
description and the signing key. -/
theorem defaults_scenario (d : String) (pk : PublicKey) :
    match (OfferBuilder.new d pk).build with
    | BuildResult.ok o =>
      o.chains = [ChainHash.using_genesis_block Network.Bitcoin]
      ∧ o.metadata = none
      ∧ o.amount = none
      ∧ o.features = OfferFeatures.empty
      ∧ o.absolute_expiry = none
      ∧ o.paths = []
      ∧ o.issuer = none
      ∧ o.supported_quantity = Quantity.one
      ∧ o.signing_pubkey = pk
      ∧ o.bytes = { chains := none, metadata := none, currency := none,
                    amount := none, description := some d, features := none,
                    absolute_expiry := none, paths := none, issuer := none,
                    quantity_max := none, node_id := some pk }
    | _ => False :=
  ⟨rfl, rfl, rfl, rfl, rfl, rfl, rfl, rfl, rfl, rfl⟩
